import Mathlib

/-!
Shallow embedding of the React-admin frontend adapter of this repository:
the HTTP client wrapper and API calls in `src/frontend/src/api/apiService.js`
and the auth provider / data provider in `src/frontend/src/authProvider.js`.

JavaScript values are modelled explicitly: `localStorage` becomes a `Storage`
record holding the two keys the code touches (`token`, `account_role`),
promise rejection values become the inductive `RejectedValue` (a structured
plain object from `fetchJson`, a JS `Error` instance, or a bare string), and
query-string building reproduces `encodeURIComponent` plus the
`application/x-www-form-urlencoded` serialization that `URLSearchParams`
applies in `toString()`, byte by byte over the UTF-8 encoding.
-/

namespace ReactAdmin

/-- The two durable session entries the code reads and writes through
`localStorage` (`getStoredAuth` / `setStoredAuth` / `clearStoredAuth` in
`apiService.js`). `none` models an absent key (JS `null`). -/
structure Storage where
  token : Option String := none
  account_role : Option String := none
  deriving DecidableEq, Repr

/-- Model of `clearStoredAuth` from `apiService.js`: removes both the `token`
and the `account_role` entries. -/
def clearStoredAuth (_ : Storage) : Storage :=
  { token := none, account_role := none }

/-- Model of `setStoredAuth(token, accountRole)` from `apiService.js`. -/
def setStoredAuth (t role : String) (_ : Storage) : Storage :=
  { token := some t, account_role := some role }

/-- The capability set returned by `authProvider.getPermissions`. -/
structure Perms where
  canCreate : Bool
  canEdit : Bool
  canDelete : Bool
  canExport : Bool
  canImport : Bool
  deriving DecidableEq, Repr

/-- Model of `authProvider.getPermissions` from `authProvider.js`: reads the
account role from storage and dispatches on strict string equality, with a
catch-all else branch. -/
def getPermissions (s : Storage) : Perms :=
  if s.account_role = some "admin" then
    { canCreate := true, canEdit := true, canDelete := true,
      canExport := true, canImport := true }
  else if s.account_role = some "corporate_admin" then
    { canCreate := false, canEdit := true, canDelete := false,
      canExport := false, canImport := false }
  else
    { canCreate := false, canEdit := false, canDelete := false,
      canExport := false, canImport := false }

/-- Model of `authProvider.checkError` from `authProvider.js`: on status 401
or 403 it clears the stored auth and rejects (`false` = rejected, signalling
re-authentication); otherwise it resolves (`true`) and does not touch
storage. -/
def checkError (status : Nat) (s : Storage) : Bool × Storage :=
  if status = 401 ∨ status = 403 then (false, clearStoredAuth s)
  else (true, s)

/-- C1 helper: the all-true capability set of the `admin` row. -/
def adminPerms : Perms :=
  { canCreate := true, canEdit := true, canDelete := true,
    canExport := true, canImport := true }

/-- C1 helper: the `corporate_admin` row (edit only). -/
def corporateAdminPerms : Perms :=
  { canCreate := false, canEdit := true, canDelete := false,
    canExport := false, canImport := false }

/-- C1 helper: the all-false capability set of the default row. -/
def noPerms : Perms :=
  { canCreate := false, canEdit := false, canDelete := false,
    canExport := false, canImport := false }

/-- UTF-8 bytes of one code point (as `Nat`s below 256). -/
def utf8Bytes (c : Char) : List Nat :=
  let n := c.toNat
  if n < 128 then [n]
  else if n < 2048 then [192 + n / 64, 128 + n % 64]
  else if n < 65536 then [224 + n / 4096, 128 + (n / 64) % 64, 128 + n % 64]
  else [240 + n / 262144, 128 + (n / 4096) % 64, 128 + (n / 64) % 64,
        128 + n % 64]

/-- UTF-8 byte sequence of a string. -/
def strBytes (s : String) : List Nat :=
  s.toList.foldr (fun c acc => utf8Bytes c ++ acc) []

/-- Uppercase hexadecimal digit character. -/
def hexDigit (n : Nat) : Char :=
  if n < 10 then Char.ofNat (48 + n) else Char.ofNat (55 + n)

/-- Percent-escape of one byte, `%XX` with uppercase hex. -/
def pctEncodeByte (b : Nat) : String :=
  String.mk ['%', hexDigit (b / 16), hexDigit (b % 16)]

/-- Bytes left unescaped by JS `encodeURIComponent`:
ASCII alphanumerics and `- _ . ! ~ * ( )` and the apostrophe. -/
def uriSafe (b : Nat) : Bool :=
  (65 ≤ b && b ≤ 90) || (97 ≤ b && b ≤ 122) || (48 ≤ b && b ≤ 57) ||
  b = 45 || b = 95 || b = 46 || b = 33 || b = 126 || b = 42 || b = 39 ||
  b = 40 || b = 41

/-- JS `encodeURIComponent`: percent-escapes every UTF-8 byte outside the
unescaped set. -/
def encodeURIComponent (s : String) : String :=
  (strBytes s).foldl
    (fun acc b =>
      acc ++ (if uriSafe b then String.mk [Char.ofNat b] else pctEncodeByte b))
    ""

/-- Bytes left unescaped by the `application/x-www-form-urlencoded`
serializer used by `URLSearchParams.toString()`:
ASCII alphanumerics and `* - . _` (space becomes `+`). -/
def formSafe (b : Nat) : Bool :=
  (65 ≤ b && b ≤ 90) || (97 ≤ b && b ≤ 122) || (48 ≤ b && b ≤ 57) ||
  b = 42 || b = 45 || b = 46 || b = 95

/-- One string serialized as a form-urlencoded token, as
`URLSearchParams.toString()` does for each key and each value. -/
def formEncodeStr (s : String) : String :=
  (strBytes s).foldl
    (fun acc b =>
      acc ++ (if b = 32 then "+"
              else if formSafe b then String.mk [Char.ofNat b]
              else pctEncodeByte b))
    ""

/-- Model of `URLSearchParams.toString()`: each appended `(key, value)` pair
becomes `key=value` with both sides form-urlencoded, pairs joined by `&`. -/
def serializeParams (ps : List (String × String)) : String :=
  String.intercalate "&" (ps.map fun kv => formEncodeStr kv.1 ++ "=" ++ formEncodeStr kv.2)

/-- A JS scalar as it can appear as a filter value in the react-admin
`params.filter` object. -/
inductive JsVal where
  | vnull
  | vundef
  | vnum (n : Int)
  | vstr (s : String)
  deriving DecidableEq, Repr

/-- JS string coercion of a filter value (what `encodeURIComponent` applies
to a non-string argument). -/
def JsVal.asString : JsVal → String
  | .vnull => "null"
  | .vundef => "undefined"
  | .vnum n => toString n
  | .vstr s => s

/-- The guard `value !== null && value !== undefined && value !== ''` in
`buildQueryParams` of `authProvider.js`. -/
def keepFilterVal : JsVal → Bool
  | .vnull => false
  | .vundef => false
  | .vnum _ => true
  | .vstr s => decide (s ≠ "")

/-- The `pagination` member of a react-admin list-params object; `none`
models an absent or `undefined` field. -/
structure Pagination where
  page : Option Nat := none
  perPage : Option Nat := none
  deriving Repr

/-- The `sort` member of a react-admin list-params object. -/
structure SortSpec where
  field : Option String := none
  order : Option String := none
  deriving Repr

/-- A react-admin list-params object as consumed by `buildQueryParams`:
`pagination`, `sort` and `filter`, each possibly absent.  `filter` is the
ordered key/value sequence that `Object.keys` iteration visits. -/
structure ListParams where
  pagination : Option Pagination := none
  sort : Option SortSpec := none
  filter : Option (List (String × JsVal)) := none
  deriving Repr

/-- JS `x || d` for an optional number field: absent and `0` are falsy. -/
def jsOrNat (o : Option Nat) (d : Nat) : Nat :=
  match o with
  | none => d
  | some 0 => d
  | some n => n

/-- JS `x || d` for an optional string field: absent and `""` are falsy. -/
def jsOrStr (o : Option String) (d : String) : String :=
  match o with
  | none => d
  | some s => if s = "" then d else s

/-- ASCII lower-casing of one character, as JS `toLowerCase` acts on the
ASCII range the code exercises. -/
def asciiLower (c : Char) : Char :=
  if 65 ≤ c.toNat ∧ c.toNat ≤ 90 then Char.ofNat (c.toNat + 32) else c

/-- JS `toLowerCase` restricted to the ASCII range the code exercises. -/
def jsToLower (s : String) : String :=
  String.mk (s.toList.map asciiLower)

/-- The pagination block of `buildQueryParams`: appends `page` and
`page_size` with `|| 1` and `|| 10` defaults. -/
def pageParams : Option Pagination → List (String × String)
  | none => []
  | some pg =>
    [("page", toString (jsOrNat pg.page 1)),
     ("page_size", toString (jsOrNat pg.perPage 10))]

/-- The sorting block of `buildQueryParams`: when `sort.field` is truthy it
appends `sort_field` and `sort_order`, the latter lower-cased from
`sort.order || 'ASC'`. -/
def sortParams : Option SortSpec → List (String × String)
  | none => []
  | some srt =>
    match srt.field with
    | none => []
    | some f =>
      if f = "" then []
      else [("sort_field", f), ("sort_order", jsToLower (jsOrStr srt.order "ASC"))]

/-- The filter block of `buildQueryParams`: each entry whose value passes the
null/undefined/empty guard is appended as `(key, encodeURIComponent value)`. -/
def filterPairs : Option (List (String × JsVal)) → List (String × String)
  | none => []
  | some entries =>
    entries.filterMap fun kv =>
      if keepFilterVal kv.2 then some (kv.1, encodeURIComponent kv.2.asString)
      else none

/-- The full pair list accumulated in the `URLSearchParams` object by
`buildQueryParams` in `authProvider.js`. -/
def buildParamsList (p : ListParams) : List (String × String) :=
  pageParams p.pagination ++ sortParams p.sort ++ filterPairs p.filter

/-- Model of `buildQueryParams` from `authProvider.js`: the accumulated pairs
serialized by `URLSearchParams.toString()`. -/
def buildQueryParams (p : ListParams) : String :=
  serializeParams (buildParamsList p)

/-- First-match lookup in a key/value pair list. -/
def lookupParam : List (String × String) → String → Option String
  | [], _ => none
  | (k, v) :: rest, key => if k = key then some v else lookupParam rest key

/-- Leading-match test: the first list starts the second one. -/
def listLeads : List Char → List Char → Bool
  | [], _ => true
  | _ :: _, [] => false
  | a :: as, b :: bs => a = b && listLeads as bs

/-- Contiguous-sublist test over character lists. -/
def listHasSub (pat : List Char) : List Char → Bool
  | [] => listLeads pat []
  | c :: rest => listLeads pat (c :: rest) || listHasSub pat rest

/-- JS `s.includes(pat)`: contiguous substring test. -/
def strIncludes (s pat : String) : Bool :=
  listHasSub pat.toList s.toList

/-- JS `s.substring(0, n)` over the code points (identical to the JS
UTF-16 semantics for the ASCII strings the code handles). -/
def jsSubstringTo (s : String) (n : Nat) : String :=
  String.mk (s.toList.take n)

/-- The parts of the parsed JSON response body that the error paths of
`fetchJson` in `apiService.js` inspect: the optional `detail` and `message`
string fields.  A body whose JSON parse failed is represented by the raw
text stored under both fields, exactly as the code constructs it. -/
structure ParsedBody where
  detail : Option String := none
  message : Option String := none
  deriving DecidableEq, Repr

/-- JS `a || b || d` over optional string fields, with the empty string
falsy: the first present non-empty string wins, else the default. -/
def firstTruthy : List (Option String) → String → String
  | [], d => d
  | none :: rest, d => firstTruthy rest d
  | some s :: rest, d => if s = "" then firstTruthy rest d else s

/-- The final `error.message` chosen by the status-code `switch` in
`fetchJson` of `apiService.js`. -/
def httpErrorMessage (status : Nat) (body : ParsedBody) : String :=
  if status = 400 then
    firstTruthy [body.detail, body.message] "Bad request. Please check your input."
  else if status = 401 then
    "Authentication required. Please log in again."
  else if status = 403 then
    firstTruthy [body.detail, body.message]
      "You do not have permission to perform this action."
  else if status = 404 then
    firstTruthy [body.detail, body.message] "Resource not found."
  else if status = 422 then
    firstTruthy [body.detail, body.message] "Validation error. Please check your input."
  else if status = 500 then
    firstTruthy [body.detail, body.message]
      "Internal server error. Please try again later."
  else if status = 503 then
    "Service unavailable. Please try again later."
  else
    firstTruthy [body.detail, body.message]
      ("An error occurred (" ++ toString status ++ ")")

/-- The structured error object `fetchJson` rejects with on a non-ok HTTP
response (the `url` and `body` fields carry no information the claims
inspect and are omitted). -/
structure HttpErr where
  status : Nat
  statusText : String
  message : String
  deriving DecidableEq, Repr

/-- JS `response.ok`: status in the 200..299 range. -/
def responseOk (status : Nat) : Bool :=
  decide (200 ≤ status) && decide (status ≤ 299)

/-- Model of the response handling of `fetchJson` from `apiService.js`: an
ok response resolves with the parsed body; any other response rejects with
the structured error whose message `httpErrorMessage` picks. -/
def fetchJson (status : Nat) (statusText : String) (body : ParsedBody) :
    Except HttpErr ParsedBody :=
  if responseOk status then .ok body
  else .error { status := status, statusText := statusText,
                message := httpErrorMessage status body }

/-- A JS value a promise can be rejected with in this code base: the
structured plain object built by `fetchJson`, a JS `Error` instance (as the
data provider throws), or a bare string. -/
inductive RejectedValue where
  | errObj (e : HttpErr)
  | jsError (message : String)
  | bareString (s : String)
  deriving DecidableEq, Repr

/-- JS `error.status` on a rejected value: present only on the structured
plain object; on an `Error` instance or a string it is `undefined`. -/
def RejectedValue.statusOf : RejectedValue → Option Nat
  | .errObj e => some e.status
  | .jsError _ => none
  | .bareString _ => none

/-- JS `error.message` on a rejected value; on a bare string primitive the
property is `undefined` and template-interpolates as the text
`undefined`. -/
def RejectedValue.messageOf : RejectedValue → String
  | .errObj e => e.message
  | .jsError m => m
  | .bareString _ => "undefined"

/-- Whether the rejected value is a JS `Error` instance. -/
def RejectedValue.isJsErr : RejectedValue → Bool
  | .jsError _ => true
  | _ => false

/-- The catch block of `dataProvider.getList` in `authProvider.js`:
`new Error` built from a template naming the resource and the action. -/
def getListWrap (resource : String) (e : RejectedValue) : RejectedValue :=
  .jsError ("Failed to fetch " ++ resource ++ " list: " ++ e.messageOf)

/-- The catch block of `dataProvider.getOne` in `authProvider.js`. -/
def getOneWrap (resource id : String) (e : RejectedValue) : RejectedValue :=
  .jsError ("Failed to fetch " ++ resource ++ " with id " ++ id ++ ": " ++ e.messageOf)

/-- The catch block of `dataProvider.getMany` in `authProvider.js`. -/
def getManyWrap (resource : String) (e : RejectedValue) : RejectedValue :=
  .jsError ("Failed to fetch multiple " ++ resource ++ ": " ++ e.messageOf)

/-- The catch block of `dataProvider.create` in `authProvider.js`: 400 and
422 get a validation label, everything else the generic template. -/
def createWrap (resource : String) (e : RejectedValue) : RejectedValue :=
  if e.statusOf = some 400 ∨ e.statusOf = some 422 then
    .jsError ("Validation error: " ++ e.messageOf)
  else
    .jsError ("Failed to create " ++ resource ++ ": " ++ e.messageOf)

/-- The catch block of `dataProvider.update` in `authProvider.js`: 400/422
get a validation label, 403 a permission label, the rest the generic
template naming resource and id. -/
def updateWrap (resource id : String) (e : RejectedValue) : RejectedValue :=
  if e.statusOf = some 400 ∨ e.statusOf = some 422 then
    .jsError ("Validation error: " ++ e.messageOf)
  else if e.statusOf = some 403 then
    .jsError ("Permission denied: " ++ e.messageOf)
  else
    .jsError ("Failed to update " ++ resource ++ " with id " ++ id ++ ": " ++ e.messageOf)

/-- The catch block of `dataProvider.updateMany` in `authProvider.js`. -/
def updateManyWrap (resource : String) (e : RejectedValue) : RejectedValue :=
  .jsError ("Failed to update multiple " ++ resource ++ ": " ++ e.messageOf)

/-- The catch block of `dataProvider.delete` in `authProvider.js`: 403 gets
a permission label, 404 a not-found label, the rest the generic template. -/
def deleteWrap (resource id : String) (e : RejectedValue) : RejectedValue :=
  if e.statusOf = some 403 then
    .jsError ("Permission denied: " ++ e.messageOf)
  else if e.statusOf = some 404 then
    .jsError ("Resource not found: " ++ e.messageOf)
  else
    .jsError ("Failed to delete " ++ resource ++ " with id " ++ id ++ ": " ++ e.messageOf)

/-- The catch block of `dataProvider.deleteMany` in `authProvider.js`. -/
def deleteManyWrap (resource : String) (e : RejectedValue) : RejectedValue :=
  .jsError ("Failed to delete multiple " ++ resource ++ ": " ++ e.messageOf)

/-- The message `msg` contains `part` as a contiguous substring, witnessed
by a decomposition. -/
def mentionsStr (msg part : String) : Prop :=
  ∃ a b, msg = a ++ (part ++ b)

/-- The CSV blob the export call resolves with. -/
structure Blob where
  content : String
  deriving DecidableEq, Repr

/-- The successful-response tail of `usersAPI.exportCSV` in `apiService.js`:
if a content-type header is present (JS truthy, so also non-empty) and
includes neither `text/csv` nor `application/octet-stream`, the body is read
as text and the call throws a diagnostic carrying the first 200 characters;
otherwise the body is resolved as a blob. -/
def exportContentGuard (contentType : Option String) (bodyText : String) :
    Except String Blob :=
  match contentType with
  | none => .ok { content := bodyText }
  | some ct =>
    if ct ≠ "" ∧ strIncludes ct "text/csv" = false ∧
        strIncludes ct "application/octet-stream" = false then
      .error ("Unexpected response type: " ++ ct ++ ". Response: " ++
        jsSubstringTo bodyText 200)
    else .ok { content := bodyText }

/-- The `{token, account_role}` payload of a successful login response. -/
structure LoginData where
  token : String
  account_role : String
  deriving DecidableEq, Repr

/-- The possible outcomes of the `fetch` to `/auth/login` that
`authAPI.login` performs: an ok response with its payload, a non-ok
response with its status, or a rejection of the fetch itself. -/
inductive LoginFetch where
  | okResp (d : LoginData)
  | badResp (status : Nat)
  | netFail (e : RejectedValue)
  deriving Repr

/-- Model of `authAPI.login` from `apiService.js`: a non-ok response throws
`new Error('Login failed')`; a fetch rejection propagates as is; an ok
response resolves with the payload. -/
def authAPIlogin : LoginFetch → Except RejectedValue LoginData
  | .okResp d => .ok d
  | .badResp _ => .error (.jsError "Login failed")
  | .netFail e => .error e

/-- Model of `authProvider.login` from `authProvider.js`: on success stores
the returned token and account role and resolves; on failure re-rejects
with the caught error unchanged. -/
def authProviderLogin (f : LoginFetch) (s : Storage) :
    Except RejectedValue Unit × Storage :=
  match authAPIlogin f with
  | .ok d => (.ok (), setStoredAuth d.token d.account_role s)
  | .error e => (.error e, s)

/-!  Helper lemmas shared by the claim theorems. -/

theorem strAppendAssoc (a b c : String) : a ++ b ++ c = a ++ (b ++ c) := by
  cases a with
  | mk d1 =>
    cases b with
    | mk d2 =>
      cases c with
      | mk d3 =>
        show String.mk (d1 ++ d2 ++ d3) = String.mk (d1 ++ (d2 ++ d3))
        rw [List.append_assoc]

theorem mentions_here (x part s m : String) :
    mentionsStr (x ++ part ++ s ++ m) part := by
  refine ⟨x, s ++ m, ?_⟩
  rw [strAppendAssoc (x ++ part) s m, strAppendAssoc x part (s ++ m)]

theorem mentions_append (msg t part : String) (h : mentionsStr msg part) :
    mentionsStr (msg ++ t) part := by
  obtain ⟨a, b, rfl⟩ := h
  refine ⟨a, b ++ t, ?_⟩
  rw [strAppendAssoc a (part ++ b) t, strAppendAssoc part b t]

/-- C1: `getPermissions` reproduces the policy table exactly: role `admin`
yields all five capabilities true, role `corporate_admin` yields only
`canEdit` true, and any other or absent role yields all five false. -/
theorem getPermissions_policy_table (s : Storage) :
    (s.account_role = some "admin" → getPermissions s = adminPerms) ∧
    (s.account_role = some "corporate_admin" →
      getPermissions s = corporateAdminPerms) ∧
    (s.account_role ≠ some "admin" → s.account_role ≠ some "corporate_admin" →
      getPermissions s = noPerms) := by
  refine ⟨fun h => ?_, fun h => ?_, fun h1 h2 => ?_⟩
  · simp [getPermissions, h, adminPerms]
  · simp [getPermissions, h, corporateAdminPerms]
  · simp [getPermissions, h1, h2, noPerms]

/-- C1 witness: concrete instances of the three rows of the table. -/
theorem getPermissions_policy_table_witness :
    getPermissions { token := some "t", account_role := some "admin" } =
      adminPerms ∧
    getPermissions { token := some "t", account_role := some "corporate_admin" } =
      corporateAdminPerms ∧
    getPermissions { token := none, account_role := none } = noPerms :=
  ⟨(getPermissions_policy_table _).1 rfl,
   (getPermissions_policy_table _).2.1 rfl,
   (getPermissions_policy_table _).2.2 (by decide) (by decide)⟩

/-- C4: `checkError` on status 401 or 403 clears both persisted session
entries and rejects; on any other status it resolves and leaves the session
unchanged. -/
theorem checkError_session (status : Nat) (s : Storage) :
    ((status = 401 ∨ status = 403) →
      checkError status s = (false, { token := none, account_role := none })) ∧
    (status ≠ 401 → status ≠ 403 → checkError status s = (true, s)) := by
  refine ⟨fun h => ?_, fun h1 h2 => ?_⟩
  · simp [checkError, h, clearStoredAuth]
  · simp [checkError, h1, h2]

/-- C4 witness: status 403 clears the session and rejects; status 500 leaves
the session untouched and resolves. -/
theorem checkError_session_witness :
    checkError 403 { token := some "tok", account_role := some "admin" } =
      (false, { token := none, account_role := none }) ∧
    checkError 500 { token := some "tok", account_role := some "admin" } =
      (true, { token := some "tok", account_role := some "admin" }) :=
  ⟨(checkError_session 403 _).1 (Or.inr rfl),
   (checkError_session 500 _).2 (by decide) (by decide)⟩

/-- C5 counterexample: with sort order `"WEIRD"`, `buildQueryParams` emits
`sort_order=weird` — the order lower-cased verbatim — and not the `desc` the
claim says an unrecognized order is normalized to. -/
theorem sort_order_unrecognized_not_desc :
    buildQueryParams
        { sort := some { field := some "name", order := some "WEIRD" } } =
      "sort_field=name&sort_order=weird" ∧
    lookupParam
        (buildParamsList
          { sort := some { field := some "name", order := some "WEIRD" } })
        "sort_order" ≠ some "desc" :=
  ⟨by decide, by decide⟩

/-- C5 (amended): when the sort field is non-empty, the query parameters are
`sort_field` set to the field and `sort_order` set to the order lower-cased
verbatim (no normalization of unrecognized values), defaulting to `asc` when
the order is absent. -/
theorem sort_params_lowercase_verbatim (f ord : String)
    (hf : f ≠ "") (ho : ord ≠ "") :
    buildParamsList { sort := some { field := some f, order := some ord } } =
      [("sort_field", f), ("sort_order", jsToLower ord)] ∧
    buildParamsList { sort := some { field := some f, order := none } } =
      [("sort_field", f), ("sort_order", "asc")] := by
  constructor
  · simp [buildParamsList, pageParams, sortParams, filterPairs, jsOrStr, hf, ho]
  · simp [buildParamsList, pageParams, sortParams, filterPairs, jsOrStr, hf]
    decide

/-- C5 witness: sort `{field: "name", order: "ASC"}` produces exactly
`sort_field=name&sort_order=asc`. -/
theorem sort_params_lowercase_verbatim_witness :
    buildParamsList
        { sort := some { field := some "name", order := some "ASC" } } =
      [("sort_field", "name"), ("sort_order", "asc")] ∧
    buildQueryParams
        { sort := some { field := some "name", order := some "ASC" } } =
      "sort_field=name&sort_order=asc" := by
  have h := (sort_params_lowercase_verbatim "name" "ASC" (by decide) (by decide)).1
  exact ⟨by rw [h]; decide, by decide⟩

/-- C6: `buildQueryParams` double-encodes filter values: the code applies
`encodeURIComponent` to the value and then `URLSearchParams.toString()`
percent-encodes the result again, so the value `"a b"` is serialized as
`role=a%2520b` instead of the single-encoded `role=a%20b` the spec
describes. -/
theorem filter_value_double_encoded :
    buildQueryParams { filter := some [("role", JsVal.vstr "a b")] } =
      "role=a%2520b" ∧
    encodeURIComponent "a b" = "a%20b" ∧
    ("role=a%2520b" : String) ≠ "role=a%20b" :=
  ⟨by decide, by decide, by decide⟩

/-- C7: filter entries whose value is null, undefined or the empty string
produce no query parameter under their key, and the concrete list call with
filters `{role: "", status: null}` yields a query string with neither key. -/
theorem empty_null_filters_dropped (entries : List (String × JsVal))
    (k : String) (h : ∀ v, (k, v) ∈ entries → keepFilterVal v = false) :
    (∀ p ∈ filterPairs (some entries), p.1 ≠ k) ∧
    buildQueryParams
        { pagination := some { page := some 1, perPage := some 10 },
          filter := some [("role", JsVal.vstr ""), ("status", JsVal.vnull)] } =
      "page=1&page_size=10" := by
  constructor
  · intro p hp
    simp only [filterPairs, List.mem_filterMap] at hp
    obtain ⟨⟨ak, av⟩, ha, hfa⟩ := hp
    dsimp only at hfa
    by_cases hkeep : keepFilterVal av = true
    · rw [if_pos hkeep] at hfa
      injection hfa with h2
      subst h2
      intro hk
      dsimp only at hk
      subst hk
      rw [h av ha] at hkeep
      exact Bool.noConfusion hkeep
    · rw [if_neg hkeep] at hfa
      exact Option.noConfusion hfa
  · decide

/-- C7 witness: instantiated at the claim's own filter map
`{role: "", status: null}` and the key `role`. -/
theorem empty_null_filters_dropped_witness :
    (∀ p ∈ filterPairs (some [("role", JsVal.vstr ""), ("status", JsVal.vnull)]),
      p.1 ≠ "role") ∧
    buildQueryParams
        { pagination := some { page := some 1, perPage := some 10 },
          filter := some [("role", JsVal.vstr ""), ("status", JsVal.vnull)] } =
      "page=1&page_size=10" := by
  refine empty_null_filters_dropped _ "role" ?_
  intro v hv
  simp only [List.mem_cons, List.not_mem_nil, or_false] at hv
  rcases hv with h1 | h1
  · injection h1 with ha hb
    subst hb
    decide
  · injection h1 with ha hb
    exact absurd ha (by decide)

/-- C3: a 401 response always rejects with the fixed message
`Authentication required. Please log in again.`, whatever the body holds. -/
theorem fetchJson_401_fixed_message (statusText : String) (body : ParsedBody) :
    fetchJson 401 statusText body =
      .error { status := 401, statusText := statusText,
               message := "Authentication required. Please log in again." } := by
  simp [fetchJson, responseOk, httpErrorMessage]

/-- C2 counterexample: `dataProvider.update` re-throws a plain
`new Error("Validation error: ...")` on a 422: the rejection has no `status`
field (so callers cannot branch on the original 422) and its message names
neither the resource nor the id. -/
theorem adapter_validation_wrap_counterexample :
    updateWrap "users" "7"
        (.errObj { status := 422, statusText := "Unprocessable Entity",
                   message := "boom" }) =
      .jsError "Validation error: boom" ∧
    RejectedValue.statusOf
        (updateWrap "users" "7"
          (.errObj { status := 422, statusText := "Unprocessable Entity",
                     message := "boom" })) = none ∧
    strIncludes "Validation error: boom" "users" = false ∧
    strIncludes "Validation error: boom" "7" = false :=
  ⟨by decide, by decide, by decide, by decide⟩

/-- C2 (amended): every failing adapter operation rejects with a JS `Error`
object — a structured value with a message, never a bare string — whose
message embeds the underlying error message; the generic failure paths name
the resource (and id), while the 400/422 validation and 403/404 shortcut
paths use only a category label; and no rejection preserves the original
HTTP status: its `status` field is always `undefined` after wrapping. -/
theorem adapter_wraps_lose_status (resource id : String) (e : RejectedValue) :
    ((getListWrap resource e).isJsErr = true ∧
      (getListWrap resource e).statusOf = none ∧
      mentionsStr ((getListWrap resource e).messageOf) resource) ∧
    ((getOneWrap resource id e).isJsErr = true ∧
      (getOneWrap resource id e).statusOf = none ∧
      mentionsStr ((getOneWrap resource id e).messageOf) resource ∧
      mentionsStr ((getOneWrap resource id e).messageOf) id) ∧
    ((createWrap resource e).isJsErr = true ∧
      (createWrap resource e).statusOf = none ∧
      (e.statusOf ≠ some 400 → e.statusOf ≠ some 422 →
        mentionsStr ((createWrap resource e).messageOf) resource)) ∧
    ((updateWrap resource id e).isJsErr = true ∧
      (updateWrap resource id e).statusOf = none ∧
      (e.statusOf ≠ some 400 → e.statusOf ≠ some 422 → e.statusOf ≠ some 403 →
        mentionsStr ((updateWrap resource id e).messageOf) resource ∧
        mentionsStr ((updateWrap resource id e).messageOf) id)) ∧
    ((deleteWrap resource id e).isJsErr = true ∧
      (deleteWrap resource id e).statusOf = none ∧
      (e.statusOf ≠ some 403 → e.statusOf ≠ some 404 →
        mentionsStr ((deleteWrap resource id e).messageOf) resource ∧
        mentionsStr ((deleteWrap resource id e).messageOf) id)) ∧
    ((getManyWrap resource e).isJsErr = true ∧
      (getManyWrap resource e).statusOf = none ∧
      (updateManyWrap resource e).isJsErr = true ∧
      (updateManyWrap resource e).statusOf = none ∧
      (deleteManyWrap resource e).isJsErr = true ∧
      (deleteManyWrap resource e).statusOf = none ∧
      mentionsStr ((getManyWrap resource e).messageOf) resource ∧
      mentionsStr ((updateManyWrap resource e).messageOf) resource ∧
      mentionsStr ((deleteManyWrap resource e).messageOf) resource) := by
  refine ⟨⟨rfl, rfl, ?_⟩, ⟨rfl, rfl, ?_, ?_⟩, ⟨?_, ?_, ?_⟩, ⟨?_, ?_, ?_⟩,
    ⟨?_, ?_, ?_⟩, rfl, rfl, rfl, rfl, rfl, rfl, ?_, ?_, ?_⟩
  · exact mentions_here "Failed to fetch " resource " list: " e.messageOf
  · exact mentions_append _ _ _ (mentions_append _ _ _
      (mentions_here "Failed to fetch " resource " with id " id))
  · exact mentions_here ("Failed to fetch " ++ resource ++ " with id ") id
      ": " e.messageOf
  · unfold createWrap
    split <;> rfl
  · unfold createWrap
    split <;> rfl
  · intro h1 h2
    have hcond : ¬(RejectedValue.statusOf e = some 400 ∨
        RejectedValue.statusOf e = some 422) := by
      rintro (h | h)
      · exact h1 h
      · exact h2 h
    simp only [createWrap, if_neg hcond, RejectedValue.messageOf]
    exact mentions_here "Failed to create " resource ": " e.messageOf
  · unfold updateWrap
    split
    · rfl
    · split <;> rfl
  · unfold updateWrap
    split
    · rfl
    · split <;> rfl
  · intro h1 h2 h3
    have hcond : ¬(RejectedValue.statusOf e = some 400 ∨
        RejectedValue.statusOf e = some 422) := by
      rintro (h | h)
      · exact h1 h
      · exact h2 h
    simp only [updateWrap, if_neg hcond, if_neg h3, RejectedValue.messageOf]
    constructor
    · exact mentions_append _ _ _ (mentions_append _ _ _
        (mentions_here "Failed to update " resource " with id " id))
    · exact mentions_here ("Failed to update " ++ resource ++ " with id ") id
        ": " e.messageOf
  · unfold deleteWrap
    split
    · rfl
    · split <;> rfl
  · unfold deleteWrap
    split
    · rfl
    · split <;> rfl
  · intro h1 h2
    simp only [deleteWrap, if_neg h1, if_neg h2, RejectedValue.messageOf]
    constructor
    · exact mentions_append _ _ _ (mentions_append _ _ _
        (mentions_here "Failed to delete " resource " with id " id))
    · exact mentions_here ("Failed to delete " ++ resource ++ " with id ") id
        ": " e.messageOf
  · exact mentions_here "Failed to fetch multiple " resource ": " e.messageOf
  · exact mentions_here "Failed to update multiple " resource ": " e.messageOf
  · exact mentions_here "Failed to delete multiple " resource ": " e.messageOf

/-- C2 witness: the generic update failure path at a concrete 500 error:
the rejection is status-less and its message names the resource. -/
theorem adapter_wraps_lose_status_witness :
    (updateWrap "users" "7"
        (.errObj { status := 500, statusText := "Internal Server Error",
                   message := "boom" })).statusOf = none ∧
    mentionsStr
      ((updateWrap "users" "7"
        (.errObj { status := 500, statusText := "Internal Server Error",
                   message := "boom" })).messageOf) "users" := by
  have h := adapter_wraps_lose_status "users" "7"
    (.errObj { status := 500, statusText := "Internal Server Error",
               message := "boom" })
  exact ⟨h.2.2.2.1.2.1,
    (h.2.2.2.1.2.2 (by decide) (by decide) (by decide)).1⟩

/-- C8: a successful export response whose content-type is present and
includes neither `text/csv` nor `application/octet-stream` does not yield a
blob: it fails with a diagnostic whose suffix is the first 200 characters
of the body; a CSV-like content-type resolves the body as a blob. -/
theorem export_rejects_non_csv (ct bodyText : String) (hne : ct ≠ "")
    (h1 : strIncludes ct "text/csv" = false)
    (h2 : strIncludes ct "application/octet-stream" = false) :
    exportContentGuard (some ct) bodyText =
      .error ("Unexpected response type: " ++ ct ++ ". Response: " ++
        jsSubstringTo bodyText 200) ∧
    (∃ pre, ("Unexpected response type: " ++ ct ++ ". Response: " ++
        jsSubstringTo bodyText 200) = pre ++ jsSubstringTo bodyText 200) ∧
    (∀ ct2 body2, strIncludes ct2 "text/csv" = true →
      exportContentGuard (some ct2) body2 = .ok { content := body2 }) ∧
    (∀ ct2 body2, strIncludes ct2 "application/octet-stream" = true →
      exportContentGuard (some ct2) body2 = .ok { content := body2 }) := by
  refine ⟨?_, ⟨"Unexpected response type: " ++ ct ++ ". Response: ", rfl⟩, ?_, ?_⟩
  · simp only [exportContentGuard]
    rw [if_pos ⟨hne, h1, h2⟩]
  · intro ct2 body2 hcsv
    simp only [exportContentGuard]
    rw [if_neg]
    rintro ⟨-, hbad, -⟩
    rw [hcsv] at hbad
    exact Bool.noConfusion hbad
  · intro ct2 body2 hoct
    simp only [exportContentGuard]
    rw [if_neg]
    rintro ⟨-, -, hbad⟩
    rw [hoct] at hbad
    exact Bool.noConfusion hbad

/-- C8 witness: content-type `text/plain` with body `oops` fails with a
message containing `oops`. -/
theorem export_rejects_non_csv_witness :
    exportContentGuard (some "text/plain") "oops" =
      .error "Unexpected response type: text/plain. Response: oops" ∧
    strIncludes "Unexpected response type: text/plain. Response: oops" "oops" =
      true := by
  have h := (export_rejects_non_csv "text/plain" "oops" (by decide) (by decide)
    (by decide)).1
  exact ⟨h.trans (congrArg Except.error (by decide)), by decide⟩

/-- C10: a successful export response with no content-type header at all
skips the CSV-likeness check and resolves the body as a blob. -/
theorem export_absent_content_type_blob (bodyText : String) :
    exportContentGuard none bodyText = .ok { content := bodyText } := rfl

/-- C9: on a successful login the session store persists the returned token
and account role and the call resolves; on any failure of `authAPI.login`
the provider rejects with that very error, unchanged, and the session is
untouched. -/
theorem login_persists_and_propagates (f : LoginFetch) (s : Storage) :
    (∀ d, f = .okResp d →
      authProviderLogin f s =
        (.ok (), { token := some d.token, account_role := some d.account_role })) ∧
    (∀ e, authAPIlogin f = .error e →
      authProviderLogin f s = (.error e, s)) := by
  constructor
  · intro d hd
    subst hd
    rfl
  · intro e he
    unfold authProviderLogin
    rw [he]

/-- C9 witness: a concrete successful login persists the pair; a concrete
401 response propagates the `Login failed` error object unchanged. -/
theorem login_persists_and_propagates_witness :
    authProviderLogin (.okResp { token := "tok", account_role := "admin" })
        { token := none, account_role := none } =
      (.ok (), { token := some "tok", account_role := some "admin" }) ∧
    authProviderLogin (.badResp 401) { token := none, account_role := none } =
      (.error (.jsError "Login failed"),
       { token := none, account_role := none }) :=
  ⟨(login_persists_and_propagates _ _).1 _ rfl,
   (login_persists_and_propagates _ _).2 _ rfl⟩

end ReactAdmin
